import Mathlib

/-!
# College-events backend: authorisation, ownership and the event lifecycle

A shallow embedding of the request handlers of the repository
(`controllers/eventController.js`, `controllers/authController.js`,
`routes/events.js`) over an explicit database state, followed by the
properties of the handlers.

Conventions of the embedding.

* A handler `async (req, res) => ...` becomes a function from the database
  before the request to the database after it together with the response
  that was sent (`Result`).
* A collection is the list of its documents in natural (insertion) order.
* A thrown exception is an `Except.error`; each handler's `catch` turns it
  into the 500 response the source sends.
* Text fields of a request are strings that may be absent (`Option String`);
  `!x` on such a field is true exactly for an absent field or the empty
  string.
* The handlers run with the database connected (`getDB()` returns it).
* What the source obtains from outside the repository (the clock, the date
  conversion of a string, the identifier the driver assigns to an inserted
  document, the text index, bcrypt, the token signature) is a field of `Env`.
-/

namespace EventManager

/-! ## Store identifiers -/

/-- The sixteen hexadecimal digits in the order of their values, lower case. -/
def hexChars : List Char :=
  ['0', '1', '2', '3', '4', '5', '6', '7', '8', '9', 'a', 'b', 'c', 'd', 'e', 'f']

/-- Lower-case hexadecimal digit of a nibble. -/
def hexDigit (d : Fin 16) : Char := hexChars.getD d.val '0'

/-- Value of a hexadecimal digit, either case; `none` for any other character. -/
def hexValue (c : Char) : Option (Fin 16) :=
  if '0' ≤ c ∧ c ≤ '9' then some (Fin.ofNat (c.toNat - 48))
  else if 'a' ≤ c ∧ c ≤ 'f' then some (Fin.ofNat (c.toNat - 87))
  else if 'A' ≤ c ∧ c ≤ 'F' then some (Fin.ofNat (c.toNat - 55))
  else none

/-- Values of a sequence of hexadecimal digits; `none` as soon as one character is not one. -/
def parseHex : List Char → Option (List (Fin 16))
  | [] => some []
  | c :: cs =>
    match hexValue c, parseHex cs with
    | some d, some ds => some (d :: ds)
    | _, _ => none

/-- A store identifier (`ObjectId`): twelve bytes, kept as twenty-four nibbles. -/
structure ObjectId where
  digits : List (Fin 16)
  size : digits.length = 24
  deriving DecidableEq

namespace ObjectId

/-- The message of the error the driver throws for a string that is not an identifier. -/
def invalidMessage : String :=
  "input must be a 24 character hex string, 12 byte Uint8Array, or an integer"

/-- The constructor `new ObjectId(s)` on a string: a string of twenty-four hexadecimal
digits is decoded, any other string throws. -/
def new (s : String) : Except String ObjectId :=
  match parseHex s.data with
  | some ds => if h : ds.length = 24 then .ok ⟨ds, h⟩ else .error invalidMessage
  | none => .error invalidMessage

/-- The method `toString()`: the twenty-four lower-case hexadecimal digits. -/
def toString (o : ObjectId) : String := String.mk (o.digits.map hexDigit)

end ObjectId

/-! ## Dates -/

/-- A JavaScript `Date`: its time value in milliseconds, `none` for an Invalid Date. -/
abbrev JSDate := Option Int

/-- The value the driver writes for a `Date`: the integer of `getTime()`, and 0 when
`getTime()` is NaN. -/
def bsonDate (d : JSDate) : Int := d.getD 0

/-! ## Documents and the database -/

/-- A document of the `events` collection. A text field holds `none` when the stored value
is null (the driver writes an `undefined` value of `$set` as null). -/
structure Event where
  _id : ObjectId
  title : Option String
  description : Option String
  date : Int
  location : Option String
  type : Option String
  image : Option String
  createdBy : ObjectId
  createdAt : Int
  updatedAt : Int
  deriving DecidableEq

/-- A document of the `users` collection. -/
structure User where
  _id : ObjectId
  name : String
  email : String
  password : String
  createdAt : Int
  updatedAt : Int
  deriving DecidableEq

/-- The database `college_events`: its two collections. -/
structure DB where
  users : List User
  events : List Event
  deriving DecidableEq

/-- What a handler takes from outside the repository. -/
structure Env where
  /-- The clock: `new Date()`. -/
  now : Int
  /-- The time value `new Date(s)` has for a string, `none` when the string does not parse. -/
  dateParse : String → Option Int
  /-- The identifier the driver assigns to the document of this request's `insertOne`. -/
  genId : ObjectId
  /-- The text index over `title` and `type`: whether a document matches a search string. -/
  textMatch : String → Event → Bool
  /-- The salted hash `bcrypt.hash(password, await bcrypt.genSalt(10))` of a string. -/
  bcryptHash : String → String
  /-- The outcome of `bcrypt.compare(password, hash)` on two strings. -/
  bcryptCompare : String → String → Bool
  /-- The variable `process.env.JWT_SECRET`. -/
  jwtSecret : Option String
  /-- The token `jwt.sign({ userId }, secret, { expiresIn: '24h' })`, from secret and userId. -/
  jwtSign : String → String → String

/-! ## Responses -/

/-- The five fields echoed by the 400 response of `createEvent`. -/
structure Received where
  title : Option String
  description : Option String
  date : Option String
  location : Option String
  type : Option String
  deriving DecidableEq

/-- The document of the public listing: `_id` (included by the store unless excluded) and
the five fields named by the projection. -/
structure ProjectedEvent where
  _id : ObjectId
  title : Option String
  description : Option String
  date : Int
  type : Option String
  image : Option String
  deriving DecidableEq

/-- The `user` object of a register or login response. -/
structure UserSummary where
  _id : ObjectId
  name : String
  email : String
  deriving DecidableEq

/-- The JSON body of a response. -/
inductive Body where
  /-- The body `{ message }`. -/
  | message (m : String)
  /-- The body `{ message, received }` of a refused creation. -/
  | missing (m : String) (received : Received)
  /-- The body `{ message, error }` of a failed creation. -/
  | failure (m : String) (error : String)
  /-- The body of a creation: `{ id, title, description, date, location, type, image }`. -/
  | created (id : ObjectId) (title description date location type : Option String)
      (image : Option String)
  /-- A full event document. -/
  | event (e : Event)
  /-- A sequence of full event documents. -/
  | events (es : List Event)
  /-- A sequence of projected event documents. -/
  | projected (es : List ProjectedEvent)
  /-- The body of an update: `{ id, title, description, date, location, updatedAt }` and
  `image` when a file was sent (`some`). -/
  | updated (id : String) (title description : Option String) (date : JSDate)
      (location : Option String) (updatedAt : Int) (image : Option String)
  /-- The body `{ token, user }`. -/
  | auth (token : String) (user : UserSummary)
  deriving DecidableEq

/-- A response: status code and JSON body. -/
structure Response where
  status : Nat
  body : Body
  deriving DecidableEq

/-- Outcome of a handler: the database after the request and the response sent. -/
structure Result where
  db : DB
  response : Response
  deriving DecidableEq

/-! ## Store operations -/

/-- The call `findOne({ _id: oid })` on `events`: the first document with that identifier. -/
def findOne (events : List Event) (oid : ObjectId) : Option Event :=
  events.find? (fun e => e._id == oid)

/-- The object given to `$set` by `updateEvent`; `image` is a key of it only when a file
was sent (`some`). -/
structure UpdateData where
  title : Option String
  description : Option String
  date : JSDate
  location : Option String
  updatedAt : Int
  image : Option String
  deriving DecidableEq

/-- The effect of `{ $set: u }` on one document: the named fields are replaced, the others
are kept. -/
def applySet (u : UpdateData) (e : Event) : Event :=
  { e with
    title := u.title
    description := u.description
    date := bsonDate u.date
    location := u.location
    updatedAt := u.updatedAt
    image := match u.image with
      | some f => some f
      | none => e.image }

/-- The call `updateOne({ _id: oid }, { $set: u })`: the first document with that identifier
is modified, no other. -/
def updateOne (oid : ObjectId) (u : UpdateData) : List Event → List Event
  | [] => []
  | e :: es => if e._id == oid then applySet u e :: es else e :: updateOne oid u es

/-- The call `deleteOne({ _id: oid })`: the first document with that identifier is removed,
no other. -/
def deleteOne (oid : ObjectId) : List Event → List Event
  | [] => []
  | e :: es => if e._id == oid then es else e :: deleteOne oid es

/-- The call `findOne({ email })` on `users`. -/
def findUser (users : List User) (email : String) : Option User :=
  users.find? (fun u => u.email == email)

/-- The call `insertOne` on `users`, which carries a unique index on `email`: a document
whose email is already stored is refused with a duplicate-key error. -/
def insertUser (users : List User) (u : User) : Except String (List User) :=
  if users.any (fun v => v.email == u.email) then .error "E11000 duplicate key error"
  else .ok (users ++ [u])

/-! ## Requests -/

/-- The text fields `createEvent` and `updateEvent` read from `req.body`. -/
structure EventBody where
  title : Option String
  description : Option String
  date : Option String
  location : Option String
  type : Option String
  deriving DecidableEq

/-- The test `!x` on a text field of a request: true for an absent field and for the empty
string. -/
def falsy : Option String → Bool
  | none => true
  | some s => s == ""

/-- The expression `new Date(date)` on a field of the body: an absent field and a string
that does not parse both give an Invalid Date; nothing is thrown. -/
def newDate (env : Env) : Option String → JSDate
  | none => none
  | some s => env.dateParse s

/-! ## controllers/eventController.js -/

/-- Handler `createEvent`; `file` is `req.file.filename` and `userId` is `req.user.userId`. -/
def createEvent (env : Env) (db : DB) (body : EventBody) (file : Option String)
    (userId : String) : Result :=
  if falsy body.title || falsy body.description || falsy body.date || falsy body.location
      || falsy body.type then
    ⟨db, 400, .missing "Missing required fields"
      ⟨body.title, body.description, body.date, body.location, body.type⟩⟩
  else
    match ObjectId.new userId with
    | .error msg => ⟨db, 500, .failure "Server error" msg⟩
    | .ok creator =>
      let eventData : Event :=
        { _id := env.genId
          title := body.title
          description := body.description
          date := bsonDate (newDate env body.date)
          location := body.location
          type := body.type
          image := file
          createdBy := creator
          createdAt := env.now
          updatedAt := env.now }
      ⟨{ db with events := db.events ++ [eventData] }, 201,
        .created env.genId body.title body.description body.date body.location body.type file⟩

/-- The comparison `sort({ date: 1 })`. -/
def dateAsc (a b : Event) : Prop := a.date ≤ b.date

/-- The comparison `sort({ date: -1 })`. -/
def dateDesc (a b : Event) : Prop := b.date ≤ a.date

instance : DecidableRel dateAsc := fun a b => inferInstanceAs (Decidable (a.date ≤ b.date))

instance : DecidableRel dateDesc := fun a b => inferInstanceAs (Decidable (b.date ≤ a.date))

/-- Handler `getEvents`: every document, sorted by ascending date. -/
def getEvents (db : DB) : Result :=
  ⟨db, 200, .events (db.events.insertionSort dateAsc)⟩

/-- Handler `getEventById`. -/
def getEventById (db : DB) (id : String) : Result :=
  match ObjectId.new id with
  | .error _ => ⟨db, 500, .message "Server error"⟩
  | .ok oid =>
    match findOne db.events oid with
    | none => ⟨db, 404, .message "Event not found"⟩
    | some event => ⟨db, 200, .event event⟩

/-- Handler `updateEvent`. -/
def updateEvent (env : Env) (db : DB) (id : String) (body : EventBody) (file : Option String)
    (userId : String) : Result :=
  match ObjectId.new id with
  | .error _ => ⟨db, 500, .message "Server error"⟩
  | .ok oid =>
    match findOne db.events oid with
    | none => ⟨db, 404, .message "Event not found"⟩
    | some event =>
      if event.createdBy.toString != userId then
        ⟨db, 403, .message "Not authorized"⟩
      else
        let updateData : UpdateData :=
          { title := body.title
            description := body.description
            date := newDate env body.date
            location := body.location
            updatedAt := env.now
            image := file }
        ⟨{ db with events := updateOne oid updateData db.events }, 200,
          .updated id updateData.title updateData.description updateData.date
            updateData.location updateData.updatedAt updateData.image⟩

/-- Handler `deleteEvent`. -/
def deleteEvent (db : DB) (id : String) (userId : String) : Result :=
  match ObjectId.new id with
  | .error _ => ⟨db, 500, .message "Server error"⟩
  | .ok oid =>
    match findOne db.events oid with
    | none => ⟨db, 404, .message "Event not found"⟩
    | some event =>
      if event.createdBy.toString != userId then
        ⟨db, 403, .message "Not authorized"⟩
      else
        ⟨{ db with events := deleteOne oid db.events }, 200,
          .message "Event deleted successfully"⟩

/-! ## routes/events.js -/

/-- Handler of `GET /debug/all`: `find({}).toArray()`, every document in natural order. -/
def routeDebugAll (db : DB) : Result :=
  ⟨db, 200, .events db.events⟩

/-- The filter object `query` of the public listing: the key `$text` and the key `type`,
each present or not. -/
structure Query where
  text : Option String
  type : Option String
  deriving DecidableEq

/-- The filter built by `GET /`: a key is set when the query parameter is truthy. -/
def buildQuery (search type : Option String) : Query :=
  { text := if falsy search then none else search
    type := if falsy type then none else type }

/-- Whether a document satisfies a filter: every key that is present must hold. -/
def Query.holds (env : Env) (q : Query) (e : Event) : Bool :=
  (match q.text with
    | none => true
    | some s => env.textMatch s e) &&
  (match q.type with
    | none => true
    | some t => e.type == some t)

/-- The projection `{ title: 1, description: 1, date: 1, type: 1, image: 1 }`. -/
def project (e : Event) : ProjectedEvent :=
  ⟨e._id, e.title, e.description, e.date, e.type, e.image⟩

/-- Handler of `GET /`: the documents that satisfy the filter, sorted by descending date and
projected. -/
def routeListEvents (env : Env) (db : DB) (search type : Option String) : Result :=
  ⟨db, 200, .projected
    (((db.events.filter (Query.holds env (buildQuery search type))).insertionSort dateDesc).map
      project)⟩

/-- Handler of `GET /:id`. -/
def routeGetEvent (db : DB) (id : String) : Result :=
  match ObjectId.new id with
  | .error _ => ⟨db, 500, .message "Server error"⟩
  | .ok oid =>
    match findOne db.events oid with
    | none => ⟨db, 404, .message "Event not found"⟩
    | some event => ⟨db, 200, .event event⟩

/-! ## controllers/authController.js -/

/-- The call `jwt.sign({ userId }, process.env.JWT_SECRET, { expiresIn: '24h' })`: it throws
when the secret is unset or empty. -/
def signToken (env : Env) (userId : String) : Except String String :=
  match env.jwtSecret with
  | none => .error "secretOrPrivateKey must have a value"
  | some secret =>
    if secret == "" then .error "secretOrPrivateKey must have a value"
    else .ok (env.jwtSign secret userId)

/-- The call `await bcrypt.hash(password, salt)` on the `password` field of the body: it
rejects when the field is absent (not a string), and resolves to the hash otherwise. -/
def hashPassword (env : Env) : Option String → Except String String
  | none => .error "Illegal arguments: undefined, string"
  | some p => .ok (env.bcryptHash p)

/-- The call `await bcrypt.compare(password, user.password)` on the `password` field of the
body: it rejects when the field is absent (not a string), and resolves to the outcome of the
check otherwise. -/
def comparePassword (env : Env) (password : Option String) (hash : String) :
    Except String Bool :=
  match password with
  | none => .error "Illegal arguments: undefined, string"
  | some p => .ok (env.bcryptCompare p hash)

/-- Handler `register`; `password` is the field of the body, which may be absent. -/
def register (env : Env) (db : DB) (name email : String) (password : Option String) :
    Result :=
  match findUser db.users email with
  | some _ => ⟨db, 400, .message "User already exists"⟩
  | none =>
    match hashPassword env password with
    | .error _ => ⟨db, 500, .message "Server error"⟩
    | .ok hashedPassword =>
      match insertUser db.users ⟨env.genId, name, email, hashedPassword, env.now, env.now⟩ with
      | .error _ => ⟨db, 500, .message "Server error"⟩
      | .ok users =>
        match signToken env env.genId.toString with
        | .error _ => ⟨{ db with users := users }, 500, .message "Server error"⟩
        | .ok token =>
          ⟨{ db with users := users }, 201, .auth token ⟨env.genId, name, email⟩⟩

/-- Handler `login`; `password` is the field of the body, which may be absent. A rejected
`bcrypt.compare` is caught and answered with 500. -/
def login (env : Env) (db : DB) (email : String) (password : Option String) : Result :=
  match findUser db.users email with
  | none => ⟨db, 400, .message "Invalid credentials"⟩
  | some user =>
    match comparePassword env password user.password with
    | .error _ => ⟨db, 500, .message "Server error"⟩
    | .ok isMatch =>
      if !isMatch then
        ⟨db, 400, .message "Invalid credentials"⟩
      else
        match signToken env user._id.toString with
        | .error _ => ⟨db, 500, .message "Server error"⟩
        | .ok token => ⟨db, 200, .auth token ⟨user._id, user.name, user.email⟩⟩

/-! ## Orders and the store invariant -/

instance : IsTotal Event dateAsc := ⟨fun a b => Int.le_total a.date b.date⟩

instance : IsTrans Event dateAsc := ⟨fun _ _ _ h1 h2 => Int.le_trans h1 h2⟩

instance : IsTotal Event dateDesc := ⟨fun a b => Int.le_total b.date a.date⟩

instance : IsTrans Event dateDesc := ⟨fun _ _ _ h1 h2 => Int.le_trans h2 h1⟩

/-- The invariant the store keeps on a collection through its index on `_id`: no two
documents have the same identifier. -/
def UniqueIds (events : List Event) : Prop := (events.map (fun e => e._id)).Nodup

instance (events : List Event) : Decidable (UniqueIds events) :=
  inferInstanceAs (Decidable (events.map (fun e : Event => e._id)).Nodup)

/-! ## Sample data -/

/-- Identifier whose digits are all the same nibble. -/
def ObjectId.rep (d : Fin 16) : ObjectId := ⟨List.replicate 24 d, by simp⟩

/-- User identifier `aaaaaaaaaaaaaaaaaaaaaaaa`. -/
def userA : ObjectId := ObjectId.rep 10

/-- User identifier `bbbbbbbbbbbbbbbbbbbbbbbb`. -/
def userB : ObjectId := ObjectId.rep 11

/-- A sample environment: the clock reads 5000, the date conversion knows one ISO string,
the text index matches a document whose title is the search string. -/
def sampleEnv : Env :=
  { now := 5000
    dateParse := fun s => if s = "2025-01-01T00:00:00.000Z" then some 1735689600000 else none
    genId := ObjectId.rep 3
    textMatch := fun s e => e.title == some s
    bcryptHash := fun p => "$2a$10$" ++ p
    bcryptCompare := fun p h => h == "$2a$10$" ++ p
    jwtSecret := some "secret"
    jwtSign := fun secret uid => secret ++ "." ++ uid }

/-- A workshop of user A, dated 2000. -/
def eventE : Event :=
  { _id := ObjectId.rep 1
    title := some "Robotics"
    description := some "Build a robot"
    date := 2000
    location := some "Lab 1"
    type := some "Workshop"
    image := none
    createdBy := userA
    createdAt := 100
    updatedAt := 100 }

/-- A seminar of user B, dated 1000. -/
def eventF : Event :=
  { _id := ObjectId.rep 2
    title := some "Compilers"
    description := some "A talk"
    date := 1000
    location := some "Hall"
    type := some "Seminar"
    image := some "poster.png"
    createdBy := userB
    createdAt := 200
    updatedAt := 200 }

/-- A stored user with email `known@x.com`. -/
def userKnown : User :=
  { _id := userA
    name := "Ann"
    email := "known@x.com"
    password := "$2a$10$right"
    createdAt := 10
    updatedAt := 10 }

/-- A database with one user and two events, the later-dated event stored first. -/
def sampleDB : DB := { users := [userKnown], events := [eventE, eventF] }

/-- A complete creation body with a date the conversion knows. -/
def fullBody : EventBody :=
  { title := some "Hackathon"
    description := some "Overnight"
    date := some "2025-01-01T00:00:00.000Z"
    location := some "Main hall"
    type := some "Competition" }

/-- A complete creation body whose date is not a date. -/
def badDateBody : EventBody := { fullBody with date := some "not-a-date" }

/-! ## Identifiers and their string form -/

theorem hexValue_hexDigit : ∀ d : Fin 16, hexValue (hexDigit d) = some d := by decide

theorem parseHex_map_hexDigit (ds : List (Fin 16)) : parseHex (ds.map hexDigit) = some ds := by
  induction ds with
  | nil => rfl
  | cons d ds ih => simp [parseHex, hexValue_hexDigit, ih]

/-- Decoding the string form of an identifier gives the identifier back. -/
theorem ObjectId.new_toString (o : ObjectId) : ObjectId.new o.toString = .ok o := by
  obtain ⟨ds, h⟩ := o
  simp [ObjectId.new, ObjectId.toString, parseHex_map_hexDigit, h]

/-- Distinct identifiers have distinct string forms. -/
theorem ObjectId.toString_injective {a b : ObjectId} (h : a.toString = b.toString) : a = b := by
  have ha := ObjectId.new_toString a
  rw [h, ObjectId.new_toString b] at ha
  exact (Except.ok.inj ha).symm

/-- The test `!x` holds exactly for an absent field and for the empty string. -/
theorem falsy_iff (x : Option String) : falsy x = true ↔ x = none ∨ x = some "" := by
  cases x with
  | none => simp [falsy]
  | some s => simp [falsy]

/-! ## Ownership: who may update or delete -/

/-- C1. For an id that resolves to a stored event `e` and any caller id `c`, `updateEvent`
and `deleteEvent` each answer 403 "Not authorized" exactly when the string form of
`e.createdBy` differs from `c`, and a 403 answer leaves the database as it was. -/
theorem forbidden_iff_not_creator (env : Env) (db : DB) (id : String) (body : EventBody)
    (file : Option String) (c : String) (oid : ObjectId) (e : Event)
    (hid : ObjectId.new id = .ok oid) (he : findOne db.events oid = some e) :
    ((updateEvent env db id body file c).response = ⟨403, .message "Not authorized"⟩
        ↔ e.createdBy.toString ≠ c) ∧
    ((deleteEvent db id c).response = ⟨403, .message "Not authorized"⟩
        ↔ e.createdBy.toString ≠ c) ∧
    ((updateEvent env db id body file c).response.status = 403
        → (updateEvent env db id body file c).response.body = .message "Not authorized"
          ∧ (updateEvent env db id body file c).db = db) ∧
    ((deleteEvent db id c).response.status = 403
        → (deleteEvent db id c).response.body = .message "Not authorized"
          ∧ (deleteEvent db id c).db = db) := by
  by_cases h : e.createdBy.toString = c
  · simp [updateEvent, deleteEvent, hid, he, h]
  · simp [updateEvent, deleteEvent, hid, he, h]

/-- User B is refused on the event of user A, by update and by delete, and the database
keeps both events. -/
theorem forbidden_iff_not_creator_witness :
    (updateEvent sampleEnv sampleDB "111111111111111111111111" fullBody none
        userB.toString).response = ⟨403, .message "Not authorized"⟩ ∧
    (deleteEvent sampleDB "111111111111111111111111" userB.toString).response
        = ⟨403, .message "Not authorized"⟩ ∧
    (deleteEvent sampleDB "111111111111111111111111" userB.toString).db = sampleDB :=
  have h := forbidden_iff_not_creator sampleEnv sampleDB "111111111111111111111111" fullBody
    none userB.toString (ObjectId.rep 1) eventE rfl rfl
  ⟨h.1.mpr (by decide), h.2.1.mpr (by decide), (h.2.2.2 (by decide)).2⟩

/-! ## Creation -/

/-- C2. `createEvent` by an authenticated caller `c` (whose token carries the string form of
`c`): when one of title, description, date, location, type is missing or empty the answer is
400 "Missing required fields" and the database is unchanged; when all five are present and
non-empty exactly one event is appended, its `createdBy` is `c`, and the answer is 201. -/
theorem createEvent_required_fields (env : Env) (db : DB) (body : EventBody)
    (file : Option String) (c : ObjectId) :
    (((body.title = none ∨ body.title = some "") ∨
        (body.description = none ∨ body.description = some "") ∨
        (body.date = none ∨ body.date = some "") ∨
        (body.location = none ∨ body.location = some "") ∨
        (body.type = none ∨ body.type = some "")) →
      createEvent env db body file c.toString =
        ⟨db, 400, .missing "Missing required fields"
          ⟨body.title, body.description, body.date, body.location, body.type⟩⟩) ∧
    ((¬(body.title = none ∨ body.title = some "") ∧
        ¬(body.description = none ∨ body.description = some "") ∧
        ¬(body.date = none ∨ body.date = some "") ∧
        ¬(body.location = none ∨ body.location = some "") ∧
        ¬(body.type = none ∨ body.type = some "")) →
      (createEvent env db body file c.toString).response.status = 201 ∧
      (createEvent env db body file c.toString).db.users = db.users ∧
      ∃ e : Event, (createEvent env db body file c.toString).db.events = db.events ++ [e] ∧
        e.createdBy = c) := by
  simp only [← falsy_iff]
  constructor
  · intro h
    have : (falsy body.title || falsy body.description || falsy body.date
        || falsy body.location || falsy body.type) = true := by
      simpa [Bool.or_assoc] using h
    simp [createEvent, this]
  · rintro ⟨h1, h2, h3, h4, h5⟩
    simp [createEvent, h1, h2, h3, h4, h5, ObjectId.new_toString]

/-- A body without `location` is refused and nothing is stored; the complete body stores one
event of user A. -/
theorem createEvent_required_fields_witness :
    (createEvent sampleEnv sampleDB { fullBody with location := none } none
        userA.toString).response.status = 400 ∧
    (createEvent sampleEnv sampleDB { fullBody with location := none } none
        userA.toString).db = sampleDB ∧
    (createEvent sampleEnv sampleDB fullBody none userA.toString).response.status = 201 ∧
    ∃ e : Event, (createEvent sampleEnv sampleDB fullBody none userA.toString).db.events
        = sampleDB.events ++ [e] ∧ e.createdBy = userA :=
  have h1 := (createEvent_required_fields sampleEnv sampleDB { fullBody with location := none }
    none userA).1 (by decide)
  have h2 := (createEvent_required_fields sampleEnv sampleDB fullBody none userA).2 (by decide)
  ⟨by rw [h1], by rw [h1], h2.1, h2.2.2⟩

/-- C3, as stated, fails: with all five fields present and a date that does not parse,
`createEvent` answers 201 (not 400) and a third event is stored. -/
theorem createEvent_unparseable_date_counterexample :
    sampleEnv.dateParse "not-a-date" = none ∧
    (createEvent sampleEnv sampleDB badDateBody none userA.toString).response.status = 201 ∧
    (createEvent sampleEnv sampleDB badDateBody none userA.toString).response.status ≠ 400 ∧
    (createEvent sampleEnv sampleDB badDateBody none userA.toString).db.events.length = 3 ∧
    (createEvent sampleEnv sampleDB badDateBody none userA.toString).db ≠ sampleDB := by
  decide

/-- C3, amended. With title, description, date, location and type all present and non-empty
and a date string that does not parse, `createEvent` by an authenticated caller `c` does not
fail: it answers 201 and exactly one event, created by `c`, is appended; its date is the value
the driver writes for an Invalid Date. -/
theorem createEvent_unparseable_date (env : Env) (db : DB) (body : EventBody)
    (file : Option String) (c : ObjectId) (d : String)
    (ht : ¬(body.title = none ∨ body.title = some ""))
    (hd : ¬(body.description = none ∨ body.description = some ""))
    (hdate : body.date = some d) (hne : d ≠ "") (hbad : env.dateParse d = none)
    (hl : ¬(body.location = none ∨ body.location = some ""))
    (hty : ¬(body.type = none ∨ body.type = some "")) :
    (createEvent env db body file c.toString).response =
      ⟨201, .created env.genId body.title body.description body.date body.location body.type
        file⟩ ∧
    ∃ e : Event, (createEvent env db body file c.toString).db.events = db.events ++ [e] ∧
      e.createdBy = c ∧ e.date = bsonDate none := by
  simp only [← falsy_iff] at ht hd hl hty
  have hdt : falsy (some d) = false := by simp [falsy, hne]
  simp [createEvent, ht, hd, hl, hty, hdt, ObjectId.new_toString, hdate, newDate, hbad]

/-- The body with the date `not-a-date` is accepted and stored. -/
theorem createEvent_unparseable_date_witness :
    (createEvent sampleEnv sampleDB badDateBody (some "a.png") userA.toString).response.status
      = 201 ∧
    ∃ e : Event, (createEvent sampleEnv sampleDB badDateBody (some "a.png")
        userA.toString).db.events = sampleDB.events ++ [e] ∧ e.createdBy = userA ∧
      e.date = bsonDate none :=
  have h := createEvent_unparseable_date sampleEnv sampleDB badDateBody (some "a.png") userA
    "not-a-date" (by decide) (by decide) rfl (by decide) (by decide) (by decide) (by decide)
  ⟨by rw [h.1], h.2⟩

/-! ## Fetching one event -/

/-- C4, as stated, fails: for the malformed id `abc` the route and the controller answer
500 "Server error", not 404. -/
theorem getEvent_malformed_id_counterexample :
    (routeGetEvent sampleDB "abc").response = ⟨500, .message "Server error"⟩ ∧
    (getEventById sampleDB "abc").response = ⟨500, .message "Server error"⟩ ∧
    (routeGetEvent sampleDB "abc").response.status ≠ 404 ∧
    (getEventById sampleDB "abc").response.status ≠ 404 := by
  decide

/-- C4, amended. Fetching one event (the route `GET /:id` and `getEventById` alike) answers
404 "Event not found" when the id is well-formed and no stored event has it, 200 with the
stored event when one has it, and 500 "Server error" when the id is malformed; the database
is never changed. -/
theorem getEvent_by_id (db : DB) (id : String) :
    routeGetEvent db id = getEventById db id ∧
    (getEventById db id).db = db ∧
    (∀ oid, ObjectId.new id = .ok oid → findOne db.events oid = none →
      (getEventById db id).response = ⟨404, .message "Event not found"⟩) ∧
    (∀ oid e, ObjectId.new id = .ok oid → findOne db.events oid = some e →
      (getEventById db id).response = ⟨200, .event e⟩) ∧
    (∀ msg, ObjectId.new id = .error msg →
      (getEventById db id).response = ⟨500, .message "Server error"⟩) := by
  refine ⟨rfl, ?_, ?_, ?_, ?_⟩
  · unfold getEventById
    cases ObjectId.new id with
    | error m => rfl
    | ok oid =>
      cases h : findOne db.events oid with
      | none => simp [h]
      | some e => simp [h]
  · intro oid h1 h2
    simp [getEventById, h1, h2]
  · intro oid e h1 h2
    simp [getEventById, h1, h2]
  · intro msg h1
    simp [getEventById, h1]

/-- The three answers on the sample database: an unknown id, the id of a stored event, and a
malformed id. -/
theorem getEvent_by_id_witness :
    (getEventById sampleDB "999999999999999999999999").response
      = ⟨404, .message "Event not found"⟩ ∧
    (getEventById sampleDB "111111111111111111111111").response = ⟨200, .event eventE⟩ ∧
    (getEventById sampleDB "xyz").response = ⟨500, .message "Server error"⟩ :=
  have h9 := (getEvent_by_id sampleDB "999999999999999999999999").2.2.1 (ObjectId.rep 9) rfl rfl
  have h1 := (getEvent_by_id sampleDB "111111111111111111111111").2.2.2.1 (ObjectId.rep 1)
    eventE rfl rfl
  have hx := (getEvent_by_id sampleDB "xyz").2.2.2.2 ObjectId.invalidMessage rfl
  ⟨h9, h1, hx⟩

/-! ## Login and registration -/

/-- C5, as stated, fails: with no password in the body, login with an email no stored user
has answers 400 "Invalid credentials", while login with a stored email answers 500 "Server
error" (the password check rejects and the handler catches); the two responses differ. -/
theorem login_absent_password_counterexample :
    (∀ v ∈ sampleDB.users, v.email ≠ "unknown@x.com") ∧
    findUser sampleDB.users "known@x.com" = some userKnown ∧
    (login sampleEnv sampleDB "unknown@x.com" none).response
      = ⟨400, .message "Invalid credentials"⟩ ∧
    (login sampleEnv sampleDB "known@x.com" none).response
      = ⟨500, .message "Server error"⟩ ∧
    (login sampleEnv sampleDB "unknown@x.com" none).response
      ≠ (login sampleEnv sampleDB "known@x.com" none).response := by
  decide

/-- C5, amended. Login with an email no stored user has (whatever the password field, also
absent) and login with a stored email and a password string that does not verify against the
stored hash give the same response: status 400 with the message "Invalid credentials". Login
with a stored email and no password answers 500 "Server error". In none of these cases is a
token issued, and the database is unchanged. -/
theorem login_failure_responses (env : Env) (db : DB) (m1 m2 : String)
    (p1 p2 : Option String) (u : User) (hunknown : ∀ v ∈ db.users, v.email ≠ m1)
    (hknown : findUser db.users m2 = some u) :
    login env db m1 p1 = ⟨db, 400, .message "Invalid credentials"⟩ ∧
    (∀ p, p2 = some p → env.bcryptCompare p u.password = false →
      login env db m2 p2 = ⟨db, 400, .message "Invalid credentials"⟩ ∧
      (login env db m1 p1).response = (login env db m2 p2).response) ∧
    (p2 = none → login env db m2 p2 = ⟨db, 500, .message "Server error"⟩) ∧
    (∀ t s, (login env db m1 p1).response.body ≠ .auth t s) ∧
    ((p2 = none ∨ ∃ p, p2 = some p ∧ env.bcryptCompare p u.password = false) →
      ∀ t s, (login env db m2 p2).response.body ≠ .auth t s) := by
  have h1 : findUser db.users m1 = none := by
    simp only [findUser, List.find?_eq_none]
    intro v hv
    simpa using hunknown v hv
  have e1 : login env db m1 p1 = ⟨db, 400, .message "Invalid credentials"⟩ := by
    simp [login, h1]
  have e2 : ∀ p, p2 = some p → env.bcryptCompare p u.password = false →
      login env db m2 p2 = ⟨db, 400, .message "Invalid credentials"⟩ := by
    intro p hp hwrong
    simp [login, hknown, hp, comparePassword, hwrong]
  have e3 : p2 = none → login env db m2 p2 = ⟨db, 500, .message "Server error"⟩ := by
    intro hp
    simp [login, hknown, hp, comparePassword]
  refine ⟨e1, ?_, e3, ?_, ?_⟩
  · intro p hp hwrong
    exact ⟨e2 p hp hwrong, by rw [e1, e2 p hp hwrong]⟩
  · intro t s
    rw [e1]
    simp
  · rintro (hp | ⟨p, hp, hwrong⟩) t s
    · rw [e3 hp]
      simp
    · rw [e2 p hp hwrong]
      simp

/-- The two failing logins of the specification on the sample database answer alike, and the
login with the stored email and no password answers 500. -/
theorem login_failure_responses_witness :
    (login sampleEnv sampleDB "unknown@x.com" (some "anything")).response
      = (login sampleEnv sampleDB "known@x.com" (some "wrongpass")).response ∧
    login sampleEnv sampleDB "known@x.com" (some "wrongpass")
      = ⟨sampleDB, 400, .message "Invalid credentials"⟩ ∧
    login sampleEnv sampleDB "known@x.com" none = ⟨sampleDB, 500, .message "Server error"⟩ :=
  have h := login_failure_responses sampleEnv sampleDB "unknown@x.com" "known@x.com"
    (some "anything") (some "wrongpass") userKnown (by decide) rfl
  have h0 := login_failure_responses sampleEnv sampleDB "unknown@x.com" "known@x.com"
    (some "anything") none userKnown (by decide) rfl
  ⟨(h.2.1 "wrongpass" rfl (by decide)).2, (h.2.1 "wrongpass" rfl (by decide)).1, h0.2.2.1 rfl⟩

/-- C6. When the users collection already holds a user with email `m`, `register` with that
email answers 400 "User already exists" for every name and password (also an absent one) and
the database is unchanged: no user is inserted and no stored user is modified. -/
theorem register_existing_email (env : Env) (db : DB) (name m : String)
    (password : Option String) (hex : ∃ u ∈ db.users, u.email = m) :
    register env db name m password = ⟨db, 400, .message "User already exists"⟩ := by
  obtain ⟨u, hu, hm⟩ := hex
  have hsome : (findUser db.users m).isSome = true := by
    simp only [findUser, List.find?_isSome]
    exact ⟨u, hu, by simpa using hm⟩
  cases hf : findUser db.users m with
  | none => simp [hf] at hsome
  | some v => simp [register, hf]

/-- A second registration of `known@x.com` is refused and the stored user keeps its hash. -/
theorem register_existing_email_witness :
    register sampleEnv sampleDB "Eve" "known@x.com" (some "other")
      = ⟨sampleDB, 400, .message "User already exists"⟩ ∧
    (register sampleEnv sampleDB "Eve" "known@x.com" (some "other")).db.users = [userKnown] :=
  have h := register_existing_email sampleEnv sampleDB "Eve" "known@x.com" (some "other")
    ⟨userKnown, by decide, rfl⟩
  ⟨h, by rw [h]; rfl⟩

/-! ## Store operations on a collection -/

theorem findOne_cons (x : Event) (xs : List Event) (oid : ObjectId) :
    findOne (x :: xs) oid = if x._id = oid then some x else findOne xs oid := by
  by_cases h : x._id = oid
  · simp [findOne, List.find?_cons, h]
  · have hb : (x._id == oid) = false := by simpa using h
    simp [findOne, List.find?_cons, h, hb]

theorem findOne_some {events : List Event} {oid : ObjectId} {e : Event}
    (h : findOne events oid = some e) : e ∈ events ∧ e._id = oid := by
  unfold findOne at h
  exact ⟨List.mem_of_find?_eq_some h, by simpa using List.find?_some h⟩

theorem findOne_eq_none {events : List Event} {oid : ObjectId}
    (h : oid ∉ events.map (fun e => e._id)) : findOne events oid = none := by
  simp only [findOne, List.find?_eq_none]
  intro x hx hxo
  exact h (List.mem_map.mpr ⟨x, hx, by simpa using hxo⟩)

/-- In a collection with unique identifiers, looking a stored event up by its identifier
finds that event. -/
theorem findOne_of_mem {events : List Event} {e : Event} (hu : UniqueIds events)
    (he : e ∈ events) : findOne events e._id = some e := by
  induction events with
  | nil => cases he
  | cons x xs ih =>
    rw [findOne_cons]
    have hnd : x._id ∉ xs.map (fun e => e._id) ∧ UniqueIds xs := by
      simpa [UniqueIds] using hu
    by_cases hx : x._id = e._id
    · rw [if_pos hx]
      rcases List.mem_cons.mp he with h | h
      · rw [h]
      · exact absurd (List.mem_map.mpr ⟨e, h, hx.symm⟩) hnd.1
    · rw [if_neg hx]
      rcases List.mem_cons.mp he with h | h
      · exact absurd (by rw [h]) hx
      · exact ih hnd.2 h

/-- The call `updateOne` rewrites one position of the collection, the one of the document
`findOne` returns. -/
theorem updateOne_eq_set (oid : ObjectId) (u : UpdateData) :
    ∀ (events : List Event) (e : Event), findOne events oid = some e →
      ∃ i, events[i]? = some e ∧ updateOne oid u events = events.set i (applySet u e) := by
  intro events
  induction events with
  | nil => intro e h; simp [findOne] at h
  | cons x xs ih =>
    intro e h
    rw [findOne_cons] at h
    by_cases hx : x._id = oid
    · rw [if_pos hx] at h
      cases h
      exact ⟨0, by simp, by simp [updateOne, hx]⟩
    · rw [if_neg hx] at h
      obtain ⟨i, hi, hset⟩ := ih e h
      exact ⟨i + 1, by simpa using hi, by simp [updateOne, hx, hset]⟩

/-- The call `deleteOne` removes the document `findOne` returns and keeps every other one;
with unique identifiers no document of that identifier is left. -/
theorem deleteOne_spec (oid : ObjectId) :
    ∀ (events : List Event) (e : Event), findOne events oid = some e →
      (e :: deleteOne oid events).Perm events ∧
      (UniqueIds events → oid ∉ (deleteOne oid events).map (fun e => e._id)) := by
  intro events
  induction events with
  | nil => intro e h; simp [findOne] at h
  | cons x xs ih =>
    intro e h
    rw [findOne_cons] at h
    by_cases hx : x._id = oid
    · rw [if_pos hx] at h
      cases h
      refine ⟨by simp [deleteOne, hx], fun hu => ?_⟩
      have hnd : x._id ∉ xs.map (fun e => e._id) ∧ UniqueIds xs := by
        simpa [UniqueIds] using hu
      have hd : deleteOne oid (x :: xs) = xs := by simp [deleteOne, hx]
      rw [hd, ← hx]
      exact hnd.1
    · rw [if_neg hx] at h
      obtain ⟨hp, hn⟩ := ih e h
      refine ⟨?_, fun hu => ?_⟩
      · simp only [deleteOne, beq_iff_eq, hx, if_false]
        exact (List.Perm.swap x e _).trans (hp.cons x)
      · have hnd : x._id ∉ xs.map (fun e => e._id) ∧ UniqueIds xs := by
          simpa [UniqueIds] using hu
        have := hn hnd.2
        simp only [deleteOne, beq_iff_eq, hx, if_false, List.map_cons, List.mem_cons, not_or]
        exact ⟨fun h => hx h.symm, this⟩

/-- The call `updateOne` keeps the identifier of every document. -/
theorem updateOne_ids (oid : ObjectId) (u : UpdateData) (events : List Event) :
    (updateOne oid u events).map (fun e => e._id) = events.map (fun e => e._id) := by
  induction events with
  | nil => rfl
  | cons x xs ih =>
    by_cases hx : x._id = oid
    · simp [updateOne, hx, applySet]
    · simp [updateOne, hx, ih]

/-- The call `deleteOne` keeps the remaining documents in their order. -/
theorem deleteOne_sublist (oid : ObjectId) (events : List Event) :
    (deleteOne oid events).Sublist events := by
  induction events with
  | nil => exact List.Sublist.refl _
  | cons x xs ih =>
    by_cases hx : x._id = oid
    · simp [deleteOne, hx]
    · simp only [deleteOne, beq_iff_eq, hx, if_false]
      exact ih.cons₂ x

/-- The three mutating handlers keep the identifiers of the events collection unique,
`createEvent` provided the identifier the driver assigns is not yet stored. -/
theorem uniqueIds_preserved (env : Env) (db : DB) (id : String) (body : EventBody)
    (file : Option String) (c : String) (hu : UniqueIds db.events) :
    UniqueIds (updateEvent env db id body file c).db.events ∧
    UniqueIds (deleteEvent db id c).db.events ∧
    (env.genId ∉ db.events.map (fun e => e._id) →
      UniqueIds (createEvent env db body file c).db.events) := by
  refine ⟨?_, ?_, ?_⟩
  · unfold updateEvent
    split
    · exact hu
    · split
      · exact hu
      · split
        · exact hu
        · simpa [UniqueIds, updateOne_ids] using hu
  · unfold deleteEvent
    split
    · exact hu
    · split
      · exact hu
      · split
        · exact hu
        · exact List.Nodup.sublist ((deleteOne_sublist _ _).map _) hu
  · intro hfresh
    unfold createEvent
    split
    · exact hu
    · split
      · exact hu
      · simp only [UniqueIds, List.map_append, List.map_cons, List.map_nil]
        refine List.Nodup.append hu (List.nodup_singleton _) ?_
        simpa using hfresh

/-! ## Update -/

/-- C7. A successful `updateEvent` on a stored event `e` (it is then made by the creator of
`e`) rewrites one position of the events collection, the one of `e`; the document there keeps
the `_id`, `type`, `createdBy` and `createdAt` of `e`, and keeps its `image` when no file was
sent; every other position, and the users collection, is unchanged. -/
theorem updateEvent_frame (env : Env) (db : DB) (id : String) (body : EventBody)
    (file : Option String) (c : String) (oid : ObjectId) (e : Event)
    (hid : ObjectId.new id = .ok oid) (he : findOne db.events oid = some e)
    (hok : (updateEvent env db id body file c).response.status = 200) :
    c = e.createdBy.toString ∧
    (updateEvent env db id body file c).db.users = db.users ∧
    ∃ (i : Nat) (e2 : Event), db.events[i]? = some e ∧
      (updateEvent env db id body file c).db.events = db.events.set i e2 ∧
      e2._id = e._id ∧ e2.type = e.type ∧ e2.createdBy = e.createdBy ∧
      e2.createdAt = e.createdAt ∧
      (file = none → e2.image = e.image) ∧
      (∀ f, file = some f → e2.image = some f) ∧
      e2.title = body.title ∧ e2.description = body.description ∧
      e2.location = body.location ∧ e2.updatedAt = env.now ∧
      (∀ j, j ≠ i → (updateEvent env db id body file c).db.events[j]? = db.events[j]?) := by
  by_cases h : e.createdBy.toString = c
  · obtain ⟨i, hi, hset⟩ := updateOne_eq_set oid
      ⟨body.title, body.description, newDate env body.date, body.location, env.now, file⟩
      db.events e he
    refine ⟨h.symm, by simp [updateEvent, hid, he, h], i,
      applySet ⟨body.title, body.description, newDate env body.date, body.location, env.now,
        file⟩ e, hi, ?_, ?_⟩
    · simp only [updateEvent, hid, he, h, bne_self_eq_false, Bool.false_eq_true, if_false]
      exact hset
    · refine ⟨rfl, rfl, rfl, rfl, ?_, ?_, rfl, rfl, rfl, rfl, ?_⟩
      · intro hf; simp [applySet, hf]
      · intro f hf; simp [applySet, hf]
      · intro j hj
        simp only [updateEvent, hid, he, h, bne_self_eq_false, Bool.false_eq_true, if_false]
        rw [hset, List.getElem?_set_ne (Ne.symm hj)]
  · simp [updateEvent, hid, he, h] at hok

/-- User A updates the event of user A without a file: the type, the creator, the creation
time and the image are kept, and the other event is untouched. -/
theorem updateEvent_frame_witness :
    ∃ (i : Nat) (e2 : Event), sampleDB.events[i]? = some eventE ∧
      (updateEvent sampleEnv sampleDB "111111111111111111111111" fullBody none
        userA.toString).db.events = sampleDB.events.set i e2 ∧
      e2.type = some "Workshop" ∧ e2.createdBy = userA ∧ e2.createdAt = 100 ∧
      e2.image = none ∧ e2.title = some "Hackathon" :=
  have h := updateEvent_frame sampleEnv sampleDB "111111111111111111111111" fullBody none
    userA.toString (ObjectId.rep 1) eventE rfl rfl (by decide)
  match h.2.2 with
  | ⟨i, e2, h1, h2, _, h4, h5, h6, h7, _, h9, _⟩ =>
    ⟨i, e2, h1, h2, h4, h5, h6, h7 rfl, h9⟩

/-! ## Listings -/

/-- C8, as stated, fails: `GET /debug/all` returns the two sample events in stored order,
the one dated 2000 before the one dated 1000, which is not ascending by date. -/
theorem debugAll_not_sorted_counterexample :
    (routeDebugAll sampleDB).response = ⟨200, .events [eventE, eventF]⟩ ∧
    eventF.date < eventE.date ∧
    ¬ List.Sorted dateAsc [eventE, eventF] := by
  decide

/-- C8, amended. `GET /debug/all` returns every stored event as a full document in the
order of the collection, with no sort applied; it is the controller `getEvents` that returns
every stored event as a full document ordered ascending by date. Neither changes the
database. -/
theorem debugAll_and_getEvents (db : DB) :
    routeDebugAll db = ⟨db, 200, .events db.events⟩ ∧
    ∃ es : List Event, getEvents db = ⟨db, 200, .events es⟩ ∧
      es.Perm db.events ∧ es.Sorted (fun a b => a.date ≤ b.date) :=
  ⟨rfl, db.events.insertionSort dateAsc, rfl, List.perm_insertionSort dateAsc db.events,
    List.sorted_insertionSort dateAsc db.events⟩

/-- C9, as stated, fails: a query parameter that is present and empty adds no condition.
With `type` present as the empty string the filter has no `type` key and the listing returns
both sample events, although no stored event has the empty type; with `search` present as
the empty string the filter has no `$text` key. -/
theorem listing_empty_parameter_counterexample :
    (buildQuery none (some "")).type = none ∧
    (buildQuery (some "") none).text = none ∧
    (routeListEvents sampleEnv sampleDB none (some "")).response
      = ⟨200, .projected [project eventE, project eventF]⟩ ∧
    sampleDB.events.filter (fun e => e.type == some "") = [] := by
  decide

/-- C9, amended. For every query the filter of the public listing contains the text-search
condition exactly when `search` is present and non-empty and the condition `type = T` exactly
when `type = T` is present and non-empty, and a document satisfies the filter when it
satisfies every condition in it. For every query the listing answers 200 with exactly the
stored events that match the search string (when `search` is present and non-empty) and
have the type `T` (when `type = T` is present and non-empty), projected and ordered
descending by date; so with `type = T` non-empty and `search` absent or empty the result is
exactly the stored events whose type equals `T`. The database is unchanged. -/
theorem listing_filter (env : Env) (db : DB) (search type : Option String) :
    (∀ s, (buildQuery search type).text = some s ↔ (search = some s ∧ s ≠ "")) ∧
    (∀ T, (buildQuery search type).type = some T ↔ (type = some T ∧ T ≠ "")) ∧
    (∀ e, Query.holds env (buildQuery search type) e = true ↔
      ((∀ s, search = some s → s ≠ "" → env.textMatch s e = true) ∧
       (∀ T, type = some T → T ≠ "" → e.type = some T))) ∧
    (∃ es : List ProjectedEvent,
      routeListEvents env db search type = ⟨db, 200, .projected es⟩ ∧
      es.Perm ((db.events.filter (fun e =>
        search.all (fun s => s == "" || env.textMatch s e) &&
        type.all (fun T => T == "" || e.type == some T))).map project) ∧
      es.Sorted (fun a b => b.date ≤ a.date)) ∧
    (∀ T, type = some T → T ≠ "" → (search = none ∨ search = some "") →
      ∃ es : List ProjectedEvent,
        routeListEvents env db search type = ⟨db, 200, .projected es⟩ ∧
        es.Perm ((db.events.filter (fun e => e.type == some T)).map project) ∧
        es.Sorted (fun a b => b.date ≤ a.date)) := by
  have hsorted := List.sorted_insertionSort dateDesc
    (db.events.filter (Query.holds env (buildQuery search type)))
  refine ⟨?_, ?_, ?_, ?_, ?_⟩
  · intro s
    cases search with
    | none => simp [buildQuery, falsy]
    | some x =>
      by_cases hx : x = ""
      · simp [buildQuery, falsy, hx]
        intro h; exact h.symm
      · simp [buildQuery, falsy, hx]
        intro h; rw [← h]; exact hx
  · intro T
    cases type with
    | none => simp [buildQuery, falsy]
    | some x =>
      by_cases hx : x = ""
      · simp [buildQuery, falsy, hx]
        intro h; exact h.symm
      · simp [buildQuery, falsy, hx]
        intro h; rw [← h]; exact hx
  · intro e
    cases search with
    | none =>
      cases type with
      | none => simp [buildQuery, falsy, Query.holds]
      | some y =>
        by_cases hy : y = "" <;> simp [buildQuery, falsy, Query.holds, hy]
    | some x =>
      cases type with
      | none =>
        by_cases hx : x = "" <;> simp [buildQuery, falsy, Query.holds, hx]
      | some y =>
        by_cases hx : x = "" <;> by_cases hy : y = "" <;>
          simp [buildQuery, falsy, Query.holds, hx, hy]
  · have hq : Query.holds env (buildQuery search type) = fun e =>
        search.all (fun s => s == "" || env.textMatch s e) &&
        type.all (fun T => T == "" || e.type == some T) := by
      funext e
      cases search with
      | none =>
        cases type with
        | none => simp [buildQuery, falsy, Query.holds]
        | some y =>
          cases hy : y == "" <;> simp [buildQuery, falsy, Query.holds, hy]
      | some x =>
        cases type with
        | none =>
          cases hx : x == "" <;> simp [buildQuery, falsy, Query.holds, hx]
        | some y =>
          cases hx : x == "" <;> cases hy : y == "" <;>
            simp [buildQuery, falsy, Query.holds, hx, hy]
    refine ⟨_, rfl, ?_, List.pairwise_map.mpr hsorted⟩
    rw [hq]
    exact (List.perm_insertionSort dateDesc _).map project
  · intro T hT hne hs
    have hq : Query.holds env (buildQuery search type) = fun e => e.type == some T := by
      funext e
      rcases hs with hs | hs <;> simp [buildQuery, falsy, Query.holds, hs, hT, hne]
    refine ⟨_, rfl, ?_, List.pairwise_map.mpr hsorted⟩
    rw [hq]
    exact (List.perm_insertionSort dateDesc _).map project

/-- On the sample database the listing `search=Compilers&type=Seminar` returns the one
seminar, `search=Compilers&type=Workshop` returns nothing, and `type=Workshop` returns the
one workshop. -/
theorem listing_filter_witness :
    routeListEvents sampleEnv sampleDB (some "Compilers") (some "Seminar")
      = ⟨sampleDB, 200, .projected [project eventF]⟩ ∧
    routeListEvents sampleEnv sampleDB (some "Compilers") (some "Workshop")
      = ⟨sampleDB, 200, .projected []⟩ ∧
    ∃ es : List ProjectedEvent,
      routeListEvents sampleEnv sampleDB none (some "Workshop")
        = ⟨sampleDB, 200, .projected es⟩ ∧
      es.Perm [project eventE] ∧ es.Sorted (fun a b => b.date ≤ a.date) := by
  refine ⟨?_, ?_, (listing_filter sampleEnv sampleDB none (some "Workshop")).2.2.2.2
    "Workshop" rfl (by decide) (Or.inl rfl)⟩
  · obtain ⟨es, h1, h2, _⟩ :=
      (listing_filter sampleEnv sampleDB (some "Compilers") (some "Seminar")).2.2.2.1
    have he : es = [project eventF] := List.perm_singleton.mp h2
    rw [h1, he]
  · obtain ⟨es, h1, h2, _⟩ :=
      (listing_filter sampleEnv sampleDB (some "Compilers") (some "Workshop")).2.2.2.1
    have he : es = [] := List.perm_nil.mp h2
    rw [h1, he]

/-! ## Deletion, end to end -/

/-- C10. In an events collection (identifiers unique, as the store keeps them) that holds an
event `E` created by user `A`, for a user `B` other than `A`: `deleteEvent` of `E` by `B`
answers 403 and changes nothing, so `E` is still stored; `deleteEvent` of `E` by `A`
afterwards answers 200 and removes `E` and no other event; and `getEventById` of `E` after
that answers 404 "Event not found". -/
theorem delete_lifecycle (db : DB) (E : Event) (A B : ObjectId)
    (huniq : UniqueIds db.events) (hE : E ∈ db.events) (hA : E.createdBy = A) (hB : B ≠ A) :
    deleteEvent db E._id.toString B.toString = ⟨db, 403, .message "Not authorized"⟩ ∧
    E ∈ (deleteEvent db E._id.toString B.toString).db.events ∧
    (deleteEvent (deleteEvent db E._id.toString B.toString).db E._id.toString
        A.toString).response = ⟨200, .message "Event deleted successfully"⟩ ∧
    (E :: (deleteEvent (deleteEvent db E._id.toString B.toString).db E._id.toString
        A.toString).db.events).Perm db.events ∧
    E ∉ (deleteEvent (deleteEvent db E._id.toString B.toString).db E._id.toString
        A.toString).db.events ∧
    (deleteEvent (deleteEvent db E._id.toString B.toString).db E._id.toString
        A.toString).db.users = db.users ∧
    (getEventById (deleteEvent (deleteEvent db E._id.toString B.toString).db E._id.toString
        A.toString).db E._id.toString).response = ⟨404, .message "Event not found"⟩ := by
  have hfind := findOne_of_mem huniq hE
  have hne : E.createdBy.toString ≠ B.toString := by
    intro h
    exact hB (ObjectId.toString_injective (by rw [← h, hA]))
  have h1 : deleteEvent db E._id.toString B.toString
      = ⟨db, 403, .message "Not authorized"⟩ := by
    simp [deleteEvent, ObjectId.new_toString, hfind, hne]
  have h2 : deleteEvent db E._id.toString A.toString
      = ⟨{ db with events := deleteOne E._id db.events }, 200,
          .message "Event deleted successfully"⟩ := by
    simp [deleteEvent, ObjectId.new_toString, hfind, hA]
  obtain ⟨hperm, hgone⟩ := deleteOne_spec E._id db.events E hfind
  have hgone := hgone huniq
  have h3 : deleteEvent (deleteEvent db E._id.toString B.toString).db E._id.toString
      A.toString = ⟨{ db with events := deleteOne E._id db.events }, 200,
          .message "Event deleted successfully"⟩ := by
    rw [h1]
    exact h2
  rw [h3]
  refine ⟨h1, ?_, rfl, hperm, ?_, rfl, ?_⟩
  · rw [h1]
    exact hE
  · intro hmem
    exact hgone (List.mem_map.mpr ⟨E, hmem, rfl⟩)
  · simp [getEventById, ObjectId.new_toString, findOne_eq_none hgone]

/-- On the sample database user B is refused on the event of user A, user A then deletes it,
only the other event is left, and the event is no longer found. -/
theorem delete_lifecycle_witness :
    deleteEvent sampleDB "111111111111111111111111" "bbbbbbbbbbbbbbbbbbbbbbbb"
      = ⟨sampleDB, 403, .message "Not authorized"⟩ ∧
    (deleteEvent sampleDB "111111111111111111111111" "aaaaaaaaaaaaaaaaaaaaaaaa").db.events
      = [eventF] ∧
    (getEventById (deleteEvent (deleteEvent sampleDB eventE._id.toString userB.toString).db
        eventE._id.toString userA.toString).db eventE._id.toString).response
      = ⟨404, .message "Event not found"⟩ :=
  have h := delete_lifecycle sampleDB eventE userA userB (by decide) (by decide) rfl (by decide)
  ⟨h.1, by decide, h.2.2.2.2.2.2⟩

end EventManager
